import Mathlib

/-!
Verification of the dashboard delegate bridge
(src/main/dashboard_delegate.py).

The Python module is shallowly embedded below. Pure computations become
Lean functions; the stateful parts of `DashboardDelegateThread` become
explicit state passing over small state records; collaborator calls
(GameController, arduino, detector) are modelled as values supplied by an
environment record, and the effects of `execute_command` (prints, setter
invocations, image displays, raised exceptions) are collected in an
explicit output record.
-/

namespace Grandmaster

/-! ## Python string primitives used by `execute_command` -/

/-- Characters removed by the Python `str.strip()` default whitespace set
(ASCII part, which is all the command strings use). -/
def pyWhitespace (c : Char) : Bool :=
  c = ' ' || c = '\t' || c = '\n' || c = '\x0d' || c = '\x0b' || c = '\x0c'

/-- Embedding of Python `str.strip()`: drop whitespace from both ends. -/
def pyStrip (l : List Char) : List Char :=
  ((l.dropWhile pyWhitespace).reverse.dropWhile pyWhitespace).reverse

/-- Embedding of Python `str.lower()` on one character, written out over
the ASCII range, which is all the dispatch comparisons use: the
uppercase letters map to their lowercase forms, every other character is
unchanged. -/
def pyToLower (c : Char) : Char :=
  match c with
  | 'A' => 'a' | 'B' => 'b' | 'C' => 'c' | 'D' => 'd' | 'E' => 'e'
  | 'F' => 'f' | 'G' => 'g' | 'H' => 'h' | 'I' => 'i' | 'J' => 'j'
  | 'K' => 'k' | 'L' => 'l' | 'M' => 'm' | 'N' => 'n' | 'O' => 'o'
  | 'P' => 'p' | 'Q' => 'q' | 'R' => 'r' | 'S' => 's' | 'T' => 't'
  | 'U' => 'u' | 'V' => 'v' | 'W' => 'w' | 'X' => 'x' | 'Y' => 'y'
  | 'Z' => 'z'
  | c => c

/-- Embedding of Python `str.upper()` on one character (ASCII range). -/
def pyToUpper (c : Char) : Char :=
  match c with
  | 'a' => 'A' | 'b' => 'B' | 'c' => 'C' | 'd' => 'D' | 'e' => 'E'
  | 'f' => 'F' | 'g' => 'G' | 'h' => 'H' | 'i' => 'I' | 'j' => 'J'
  | 'k' => 'K' | 'l' => 'L' | 'm' => 'M' | 'n' => 'N' | 'o' => 'O'
  | 'p' => 'P' | 'q' => 'Q' | 'r' => 'R' | 's' => 'S' | 't' => 'T'
  | 'u' => 'U' | 'v' => 'V' | 'w' => 'W' | 'x' => 'X' | 'y' => 'Y'
  | 'z' => 'Z'
  | c => c

/-- Embedding of Python `str.lower()`. -/
def pyLower (l : List Char) : List Char := l.map pyToLower

/-- Embedding of Python `s.split(' ')` destructured as `cmd, *args`:
returns the first field and the list of remaining fields. Python
`split` with an explicit single-space separator splits at every single
space character and keeps empty fields, so consecutive spaces produce
empty tokens and no other whitespace character separates. -/
def pySplit1 : List Char → List Char × List (List Char)
  | [] => ([], [])
  | c :: rest =>
    let r := pySplit1 rest
    if c = ' ' then ([], r.1 :: r.2) else (c :: r.1, r.2)

/-- Embedding of `command.strip().lower().split(' ')` destructured as
`cmd, *args` (line 66 of the source). -/
def pyParse (s : String) : String × List String :=
  let p := pySplit1 (pyLower (pyStrip s.data))
  (String.mk p.1, p.2.map String.mk)

/-- Embedding of `str.upper()` on a whole string, used for
`Button[args[0].upper()]` and `LEDPallete[args[0].upper()]`. -/
def pyUpperS (s : String) : String := String.mk (s.data.map pyToUpper)

/-! ## The chess collaborator (python-chess), at its interface boundary -/

/-- Embedding of `chess.parse_square`: the name must be a file letter
`a`..`h` followed by a rank digit `1`..`8`; the index is
`8 * rank + file` as in python-chess. Returns `none` where the library
raises `ValueError`. -/
def parseSquare (s : String) : Option Nat :=
  match s.data with
  | [f, r] =>
    if 'a' ≤ f && f ≤ 'h' && '1' ≤ r && r ≤ '8' then
      some ((r.toNat - '1'.toNat) * 8 + (f.toNat - 'a'.toNat))
    else none
  | _ => none

/-- Embedding of `chess.square_name`. -/
def squareName (sq : Nat) : String :=
  String.mk [Char.ofNat ('a'.toNat + sq % 8), Char.ofNat ('1'.toNat + sq / 8)]

/-- A detected board, as an 8 by 8 grid of cell renderings (the printable
content of a `chess.Board`). -/
def BoardGrid : Type := List (List String)

instance : DecidableEq BoardGrid := by unfold BoardGrid; infer_instance

/-- Embedding of `board.transform(chess.flip_horizontal)`: mirror files,
which reverses every rank line of the rendering. -/
def flipHorizontal (b : BoardGrid) : BoardGrid := b.map List.reverse

/-- Embedding of `board.transform(chess.flip_vertical)`: mirror ranks,
which reverses the order of the rank lines of the rendering. -/
def flipVertical (b : BoardGrid) : BoardGrid := b.reverse

/-- Rendering of a board grid as printed text. -/
def boardText (b : BoardGrid) : String :=
  String.intercalate "\n" (b.map (String.intercalate " "))

/-! ## The collaborator environment and the effect log -/

/-- One collaborator invocation requested by `execute_command`. The
setters are non-raising requests against the GameController and the
arduino manager; the Bool on the first two is the `block` keyword. -/
inductive Action
  | moveToSquare (square : Nat) (block : Bool)
  | setElectromagnet (enabled : Bool) (block : Bool)
  | setButtonLight (button : String) (enabled : Bool)
  | setLedPallete (pallete : String)
  | setAutoplay (enabled : Bool)
deriving DecidableEq, Repr

/-- Outcomes of the collaborators consumed by `execute_command`.

The `Button` and `LEDPallete` enums live in `arduino_manager.py`, which
is not part of the visible sources. Modelled from the spec: the spec
fixes only that lookup by name is by enum member name and that an
unknown name (such as "king") raises `KeyError`; membership itself is
therefore environment-supplied, `none` standing for a name that is not a
member. `get_image` and the detector are modelled by their results:
`Except.error` stands for a raised exception with the given message. -/
structure Env where
  buttonOfName : String → Option String
  palleteOfName : String → Option String
  fetchImage : Except String Nat
  detectPositions : Nat → Except String Nat
  generateBoard : Nat → Except String BoardGrid

/-- Everything observable about one `execute_command` call: the messages
printed through `print_to_dashboard`, the collaborator actions requested,
the images shown with their captions, whether `exit(0)` ran, and the
exception propagated to the caller (`none` when the call returns). -/
structure ExecOut where
  printed : List String
  actions : List Action
  shown : List (Nat × String)
  exited : Bool
  exn : Option String
deriving DecidableEq, Repr

/-- Embedding of the two statements inside the camshow `try` block that
can raise: `detect_piece_positions` followed by `generate_board`. -/
def detect_and_generate (env : Env) (img : Nat) : Except String BoardGrid :=
  match env.detectPositions img with
  | Except.error e => Except.error e
  | Except.ok p => env.generateBoard p

/-- Embedding of the second `try` block of the camshow branch and what
follows it: on a detection failure the undecorated raw frame is shown
with the failure caption and the error is reported; on success the
detected board is printed flipped horizontally and vertically. The
annotated displays produced inside the detector through the `show`
callback are the collaborator's own effects and are not part of this
log; `shown` records the calls made by `execute_command` itself. -/
def camshowDetect (env : Env) (img : Nat) : ExecOut :=
  match detect_and_generate env img with
  | Except.error e =>
    ⟨["Fetching image...", "Recognizing board...",
      "Failed to detect piece positions: " ++ e],
     [], [(img, "Failed to Detect Piece Positions:")], false, none⟩
  | Except.ok board =>
    ⟨["Fetching image...", "Recognizing board...",
      "Board (computer perspective):",
      boardText (flipVertical (flipHorizontal board))],
     [], [], false, none⟩

/-- Embedding of the camshow branch of `execute_command`: the first
`try` block reports a fetch failure and returns without showing any
image; otherwise detection proceeds on the fetched frame. -/
def camshowBranch (env : Env) : ExecOut :=
  match env.fetchImage with
  | Except.error e =>
    ⟨["Fetching image...", "Failed to load image: " ++ e], [], [], false, none⟩
  | Except.ok img => camshowDetect env img

/-- Embedding of the dispatch chain of `DashboardDelegate.execute_command`
(lines 62 to 109), applied to the already parsed `cmd` and `args`. Each
arm reproduces the statement order of its Python branch: an out-of-range
`args` index is an `IndexError`, a failed `chess.parse_square` a
`ValueError`, a failed enum lookup a `KeyError`, each raised at the point
the Python expression is evaluated, with the prints made so far kept. -/
def dispatchCommand (env : Env) (command : String) (cmd : String)
    (args : List String) : ExecOut :=
  match cmd with
  | "move" =>
    match args with
    | [] => ⟨[], [], [], false, some "IndexError"⟩
    | a0 :: _ =>
      match parseSquare a0 with
      | none => ⟨[], [], [], false, some "ValueError"⟩
      | some sq =>
        ⟨["Moving to square: " ++ squareName sq],
         [Action.moveToSquare sq false], [], false, none⟩
  | "magnet" =>
    match args with
    | [] => ⟨[], [], [], false, some "IndexError"⟩
    | a0 :: _ =>
      ⟨[if a0 = "on" then "Turning magnet ON" else "Turning magnet OFF"],
       [Action.setElectromagnet (a0 = "on") false], [], false, none⟩
  | "bled" =>
    match args with
    | a0 :: a1 :: _ =>
      match env.buttonOfName (pyUpperS a0) with
      | none => ⟨[], [], [], false, some "KeyError"⟩
      | some bname =>
        ⟨["Turning button light " ++ bname ++
            (if a1 = "on" then " ON" else " OFF")],
         [Action.setButtonLight bname (a1 = "on")], [], false, none⟩
    | _ => ⟨[], [], [], false, some "IndexError"⟩
  | "leds" =>
    match args with
    | [] => ⟨[], [], [], false, some "IndexError"⟩
    | a0 :: _ =>
      match env.palleteOfName (pyUpperS a0) with
      | none => ⟨[], [], [], false, some "KeyError"⟩
      | some pname =>
        ⟨["Setting LEDs to Pallete: " ++ pname],
         [Action.setLedPallete pname], [], false, none⟩
  | "autoplay" =>
    match args with
    | [] => ⟨[], [], [], false, some "IndexError"⟩
    | a0 :: _ => ⟨[], [Action.setAutoplay (a0 = "on")], [], false, none⟩
  | "camshow" => camshowBranch env
  | "exit" => ⟨[], [], [], true, none⟩
  | _ =>
    ⟨["Unknown Command: \x27" ++ command ++ "\x27"], [], [], false, none⟩

/-- Embedding of `DashboardDelegate.execute_command`: parse the raw text,
then dispatch. The unknown-command message interpolates the raw
`command`, not the parsed one, as in the source f-string. -/
def execute_command (env : Env) (command : String) : ExecOut :=
  dispatchCommand env command (pyParse command).1 (pyParse command).2

/-- A concrete collaborator environment for evaluating commands: fetch
and detection succeed; no name is a `Button` member (modelled from the
spec, which fixes only that "king" is not one); "GAME" is an
`LEDPallete` member. -/
def testEnv : Env where
  buttonOfName := fun _ => none
  palleteOfName := fun n => if n = "GAME" then some "GAME" else none
  fetchImage := Except.ok 7
  detectPositions := fun _ => Except.ok 3
  generateBoard := fun _ => Except.ok [["r", "k"], ["R", "K"]]

/-- A collaborator environment whose camera fetch fails. -/
def envFetchFail : Env where
  buttonOfName := fun _ => none
  palleteOfName := fun _ => none
  fetchImage := Except.error "camera offline"
  detectPositions := fun _ => Except.ok 3
  generateBoard := fun _ => Except.ok [["r"]]

/-- A collaborator environment whose detection throws. -/
def envDetectFail : Env where
  buttonOfName := fun _ => none
  palleteOfName := fun _ => none
  fetchImage := Except.ok 7
  detectPositions := fun _ => Except.error "no corners found"
  generateBoard := fun _ => Except.ok [["r"]]

/-! ## The controller state and the statusline -/

/-- The `State` enum of the GameController. The first five members are
exactly the keys of `GAME_STATE_STATUSLINE_COLORS` in the source.
Modelled from the spec: `game_controller.py` is not among the visible
sources, and the spec states that the controller can report values
beyond the colour table, every one of which must fall back to the
default colour; `WAITING_FOR_INPUT` and `PROCESSING` are the example
values the spec names. -/
inductive GState
  | STARTING
  | READY
  | HUMAN_TURN
  | COMPUTER_TURN
  | ERROR
  | WAITING_FOR_INPUT
  | PROCESSING
deriving DecidableEq, Repr

/-- Name of a controller state, as `state.name` renders it. -/
def stateName : GState → String
  | GState.STARTING => "STARTING"
  | GState.READY => "READY"
  | GState.HUMAN_TURN => "HUMAN_TURN"
  | GState.COMPUTER_TURN => "COMPUTER_TURN"
  | GState.ERROR => "ERROR"
  | GState.WAITING_FOR_INPUT => "WAITING_FOR_INPUT"
  | GState.PROCESSING => "PROCESSING"

/-- Embedding of the `GAME_STATE_STATUSLINE_COLORS` dict (lines 23 to
29), as an association list in source order. -/
def GAME_STATE_STATUSLINE_COLORS : List (GState × String) :=
  [(GState.STARTING, "ansiblack bg:ansigray"),
   (GState.READY, "bg:ansigreen"),
   (GState.HUMAN_TURN, "bg:#FF69B4"),
   (GState.COMPUTER_TURN, "ansiblack bg:#66AAFF"),
   (GState.ERROR, "bg:ansired")]

/-- Embedding of Python `dict.__contains__` restricted to this table:
the looked-up value, when the key is present. -/
def dictFind (table : List (GState × String)) (k : GState) : Option String :=
  match table with
  | [] => none
  | (k2, v) :: rest => if k = k2 then some v else dictFind rest k

/-- Embedding of Python `dict.get(key, default)`. -/
def dictGet (table : List (GState × String)) (k : GState) (dflt : String) :
    String :=
  (dictFind table k).getD dflt

/-- The colour chosen for a controller state in `make_statusline`:
`GAME_STATE_STATUSLINE_COLORS.get(self.game.state, 'ansiblack bg:ansiwhite')`. -/
def statuslineColor (s : GState) : String :=
  dictGet GAME_STATE_STATUSLINE_COLORS s "ansiblack bg:ansiwhite"

/-- The controller-side observations `make_statusline` reads: the state,
the gantry position rendering and the electromagnet flag. -/
structure WorkerEnv where
  state : GState
  gantry_pos : String
  electromagnet_enabled : Bool
deriving DecidableEq, Repr

/-- Embedding of `DashboardDelegate.make_statusline` (lines 45 to 60):
the returned `(colour, text)` pair. The initial `arduino.update()` call
is a collaborator effect with no bearing on the returned value. -/
def make_statusline (w : WorkerEnv) : String × String :=
  (statuslineColor w.state,
   if w.state = GState.STARTING then "Starting..."
   else
     "State: " ++ stateName w.state ++ " / Gantry: " ++ w.gantry_pos ++
       " / Magnet: " ++ (if w.electromagnet_enabled then "ON" else "OFF"))

/-! ## The display cache of DashboardDelegateThread -/

/-- The three class fields of `DashboardDelegateThread` holding the
display cache (lines 125 to 127). -/
structure CacheState where
  status_line : String
  status_line_color : String
  status_line_stale : Bool
deriving DecidableEq, Repr

/-- The class-level initial values of the cache fields. -/
def initCache : CacheState :=
  ⟨"Loading...", "bg:ansigray", true⟩

/-- Embedding of `get_status_line` (lines 136 to 138): returns the text
and, as a side effect, marks the cache stale. -/
def get_status_line (s : CacheState) : String × CacheState :=
  (s.status_line, { s with status_line_stale := true })

/-- Embedding of `get_status_line_color` (lines 140 to 142): returns the
colour and deliberately leaves the cache untouched. -/
def get_status_line_color (s : CacheState) : String × CacheState :=
  (s.status_line_color, s)

/-- The first store of the publish tuple assignment in `run`:
`self.status_line_color, self.status_line = delegate.make_statusline()`
stores the colour field first. -/
def storeStatusColor (c : String) (s : CacheState) : CacheState :=
  { s with status_line_color := c }

/-- The second store of the publish tuple assignment: the text field. -/
def storeStatusLine (t : String) (s : CacheState) : CacheState :=
  { s with status_line := t }

/-- A completed publish: both stores of the tuple assignment, in source
order (colour, then text). Note that no field of the staleness flag is
written. -/
def publishSnap (c t : String) (s : CacheState) : CacheState :=
  storeStatusLine t (storeStatusColor c s)

/-- Embedding of the cache step of one `run` loop iteration (lines 152
to 158): when the cache is stale, recompute the statusline and publish
it. The source never assigns `status_line_stale` here. -/
def workerRefresh (w : WorkerEnv) (s : CacheState) : CacheState :=
  if s.status_line_stale then
    publishSnap (make_statusline w).1 (make_statusline w).2 s
  else s

/-- The cache operations the two threads perform between publishes. -/
inductive CacheOp
  | read
  | readColor
  | refresh (w : WorkerEnv)
deriving DecidableEq, Repr

/-- Effect of one cache operation on the cache fields. -/
def cacheStep (s : CacheState) : CacheOp → CacheState
  | CacheOp.read => (get_status_line s).2
  | CacheOp.readColor => (get_status_line_color s).2
  | CacheOp.refresh w => workerRefresh w s

/-- Effect of a sequence of cache operations. -/
def runCache (s : CacheState) (ops : List CacheOp) : CacheState :=
  ops.foldl cacheStep s

/-! ## The command queue of DashboardDelegateThread -/

/-- The queue of pending command strings together with the log of the
commands handed to `execute_command`, in order. -/
structure QueueState where
  commands : List String
  handled : List String
deriving DecidableEq, Repr

/-- The queue as `__init__` leaves it: empty, nothing handled. -/
def initQueue : QueueState := ⟨[], []⟩

/-- Queue operations: an `enqueue` by a producer, or one pass of the
drain loop body of `run`. -/
inductive QOp
  | enq (s : String)
  | drainStep
deriving DecidableEq, Repr

/-- Effect of one queue operation. Modelled from the spec for `enq`: the
call site of the foreground producer is not among the visible sources,
and the spec fixes `enqueue` as append-to-tail of the FIFO. `drainStep`
embeds one iteration of `while len(self.commands) > 0:
delegate.execute_command(self.commands.popleft())` (lines 159 to 160):
when the queue is non-empty, pop the head and hand it to the handler. -/
def qstep (s : QueueState) : QOp → QueueState
  | QOp.enq c => { s with commands := s.commands ++ [c] }
  | QOp.drainStep =>
    match s.commands with
    | [] => s
    | c :: rest => ⟨rest, s.handled ++ [c]⟩

/-- Effect of a sequence of queue operations. -/
def runQueue (s : QueueState) (ops : List QOp) : QueueState :=
  ops.foldl qstep s

/-- The commands submitted by a sequence of operations, in submission
order. -/
def enqueuedOf : List QOp → List String
  | [] => []
  | QOp.enq c :: rest => c :: enqueuedOf rest
  | QOp.drainStep :: rest => enqueuedOf rest

/-! ## Helper lemmas on the string primitives -/

theorem pyToLower_space {c : Char} (h : pyToLower c = ' ') : c = ' ' := by
  unfold pyToLower at h
  split at h <;> first | exact h | exact absurd h (by decide)

theorem dropWhile_head_false {p : Char → Bool} :
    ∀ (l : List Char), (∀ c, l.head? = some c → p c = false) → l.dropWhile p = l
  | [], _ => rfl
  | a :: t, h => by simp [List.dropWhile_cons, h a rfl]

theorem getLast?_mem {l : List Char} {c : Char} (h : l.getLast? = some c) :
    c ∈ l := by
  have hne : l ≠ [] := by rintro rfl; simp at h
  rw [List.getLast?_eq_getLast_of_ne_nil hne] at h
  exact (Option.some.injEq _ _ ▸ h) ▸ List.getLast_mem hne

theorem pyStrip_eq_self (l : List Char)
    (h1 : ∀ c, l.head? = some c → pyWhitespace c = false)
    (h2 : ∀ c, l.getLast? = some c → pyWhitespace c = false) :
    pyStrip l = l := by
  unfold pyStrip
  rw [dropWhile_head_false l h1,
    dropWhile_head_false l.reverse
      (fun c hc => h2 c (by rwa [List.head?_reverse] at hc)),
    List.reverse_reverse]

theorem pyStrip_sandwich (a m b : List Char) (ha : a ≠ []) (hb : b ≠ [])
    (hA : ∀ c ∈ a, pyWhitespace c = false)
    (hB : ∀ c ∈ b, pyWhitespace c = false) :
    pyStrip (a ++ (m ++ b)) = a ++ (m ++ b) := by
  apply pyStrip_eq_self
  · intro c hc
    obtain ⟨x, t, rfl⟩ := List.exists_cons_of_ne_nil ha
    simp at hc
    exact hc ▸ hA x (List.mem_cons_self x t)
  · intro c hc
    rw [← List.append_assoc, List.getLast?_append_of_ne_nil _ hb] at hc
    exact hB c (getLast?_mem hc)

theorem pySplit1_no_space : ∀ (l : List Char), (∀ c ∈ l, c ≠ ' ') →
    pySplit1 l = (l, [])
  | [], _ => rfl
  | c :: t, h => by
    have hc : c ≠ ' ' := h c (List.mem_cons_self c t)
    have ih := pySplit1_no_space t (fun x hx => h x (List.mem_cons_of_mem c hx))
    simp [pySplit1, hc, ih]

theorem pySplit1_append_space : ∀ (a b : List Char), (∀ c ∈ a, c ≠ ' ') →
    pySplit1 (a ++ ' ' :: b) = (a, (pySplit1 b).1 :: (pySplit1 b).2)
  | [], b, _ => by simp [pySplit1]
  | x :: xs, b, h => by
    have hx : x ≠ ' ' := h x (List.mem_cons_self x xs)
    have ih :=
      pySplit1_append_space xs b (fun c hc => h c (List.mem_cons_of_mem x hc))
    simp [List.cons_append, pySplit1, hx, ih]

theorem mem_pyLower_ne_space {a : List Char}
    (h : ∀ c ∈ a, pyWhitespace c = false) : ∀ c ∈ pyLower a, c ≠ ' ' := by
  intro c hc hsp
  obtain ⟨x, hx, rfl⟩ := List.mem_map.mp hc
  have hxs : x = ' ' := pyToLower_space hsp
  subst hxs
  have := h ' ' hx
  simp [pyWhitespace] at this

/-! ## Helper lemmas on the interpreter and the thread state -/

theorem execute_eq_dispatch (env : Env) (command : String) :
    execute_command env command =
      dispatchCommand env command (pyParse command).1 (pyParse command).2 := rfl

theorem camshowDetect_exn (env : Env) (img : Nat) :
    (camshowDetect env img).exn = none := by
  unfold camshowDetect
  rcases detect_and_generate env img with e | b <;> rfl

theorem camshow_never_raises (env : Env) : (camshowBranch env).exn = none := by
  unfold camshowBranch
  rcases hf : env.fetchImage with e | img
  · rfl
  · exact camshowDetect_exn env img

theorem runQueue_inv : ∀ (ops : List QOp) (s : QueueState),
    (runQueue s ops).handled ++ (runQueue s ops).commands =
      s.handled ++ (s.commands ++ enqueuedOf ops) := by
  intro ops
  induction ops with
  | nil => intro s; simp [runQueue, enqueuedOf]
  | cons op rest ih =>
    intro s
    cases op with
    | enq c =>
      have h := ih (qstep s (QOp.enq c))
      simp [runQueue] at h ⊢
      rw [h]
      simp [qstep, enqueuedOf]
    | drainStep =>
      have h := ih (qstep s QOp.drainStep)
      simp [runQueue] at h ⊢
      rw [h]
      cases hc : s.commands with
      | nil => simp [qstep, hc, enqueuedOf]
      | cons c cs => simp [qstep, hc, enqueuedOf]

theorem drainAll_empties : ∀ (cs hs : List String),
    runQueue ⟨cs, hs⟩ (List.replicate cs.length QOp.drainStep) =
      ⟨[], hs ++ cs⟩ := by
  intro cs
  induction cs with
  | nil => intro hs; simp [runQueue]
  | cons c rest ih =>
    intro hs
    rw [List.length_cons, List.replicate_succ]
    show runQueue (qstep ⟨c :: rest, hs⟩ QOp.drainStep)
      (List.replicate rest.length QOp.drainStep) = ⟨[], hs ++ c :: rest⟩
    rw [show qstep ⟨c :: rest, hs⟩ QOp.drainStep = ⟨rest, hs ++ [c]⟩ from rfl]
    rw [ih (hs ++ [c])]
    simp

theorem readsPreserve : ∀ (ops : List CacheOp) (s : CacheState),
    (∀ op ∈ ops, op = CacheOp.read ∨ op = CacheOp.readColor) →
    (runCache s ops).status_line = s.status_line ∧
    (runCache s ops).status_line_color = s.status_line_color := by
  intro ops
  induction ops with
  | nil => intro s _; exact ⟨rfl, rfl⟩
  | cons op rest ih =>
    intro s h
    have hop := h op (List.mem_cons_self op rest)
    have hrest := fun o ho => h o (List.mem_cons_of_mem op ho)
    rcases hop with rfl | rfl
    · have hr := ih (get_status_line s).2 hrest
      exact ⟨hr.1, hr.2⟩
    · have hr := ih (get_status_line_color s).2 hrest
      exact ⟨hr.1, hr.2⟩

/-! ## The claims -/

/-- C1, counterexample: the claim that every failure is caught inside
`execute_command` is false. The command "move zz" has an invalid square
name and `chess.parse_square` raises a `ValueError` that propagates to
the caller; the command "bled king on" has an unknown button name and
`Button["KING"]` raises a `KeyError` that propagates to the caller. In
both runs nothing is printed and no collaborator action is requested. -/
theorem claim_C1_counterexample :
    execute_command testEnv "move zz" = ⟨[], [], [], false, some "ValueError"⟩
  ∧ execute_command testEnv "bled king on" =
      ⟨[], [], [], false, some "KeyError"⟩ := by
  decide

/-- C1 (amended): only the camshow branch catches failures. For every
collaborator environment, a command parsing to head "camshow" never
raises to the caller, whatever the fetch and detection outcomes are;
whereas a "move" command whose square argument does not parse raises a
`ValueError` out of `execute_command`. -/
theorem claim_C1_amended : ∀ (env : Env) (cmd a0 : String) (rest : List String),
    ((pyParse cmd).1 = "camshow" → (execute_command env cmd).exn = none)
  ∧ (pyParse cmd = ("move", a0 :: rest) → parseSquare a0 = none →
      (execute_command env cmd).exn = some "ValueError") := by
  intro env cmd a0 rest
  constructor
  · intro h
    have hx : execute_command env cmd = camshowBranch env := by
      rw [execute_eq_dispatch, h]
      rfl
    rw [hx]
    exact camshow_never_raises env
  · intro h hsq
    have hx : execute_command env cmd = dispatchCommand env cmd "move" (a0 :: rest) := by
      rw [execute_eq_dispatch, h]
    rw [hx]
    show (match parseSquare a0 with
      | none => (⟨[], [], [], false, some "ValueError"⟩ : ExecOut)
      | some sq =>
        ⟨["Moving to square: " ++ squareName sq],
         [Action.moveToSquare sq false], [], false, none⟩).exn = some "ValueError"
    rw [hsq]

/-- C1, witness for the amended claim: with a failing camera the
camshow command still returns normally, and "move zz" raises. -/
theorem claim_C1_amended_witness :
    (execute_command envFetchFail "camshow").exn = none
  ∧ (execute_command testEnv "move zz").exn = some "ValueError" :=
  ⟨(claim_C1_amended envFetchFail "camshow" "" []).1 (by decide),
   (claim_C1_amended testEnv "move zz" "zz" []).2 (by decide) (by decide)⟩

/-- C2 (code bug): the worker loop never clears the staleness flag. One
cache step of a `run` iteration leaves `status_line_stale` exactly as it
was, for every cache state; in particular, from the initial (stale)
state the flag is still true right after the snapshot is published,
contradicting the claim that the worker sets it to false immediately
after recomputing. -/
theorem claim_C2_code_eval : ∀ (w : WorkerEnv) (s : CacheState),
    (workerRefresh w s).status_line_stale = s.status_line_stale
  ∧ (workerRefresh w initCache).status_line_stale = true := by
  intro w s
  constructor
  · unfold workerRefresh
    split <;> rfl
  · rfl

/-- C3: over every sequence of enqueues interleaved with drain steps,
the handled log plus the pending queue is exactly the submission-ordered
list of enqueued commands (so nothing is duplicated, dropped or
reordered), and draining the backlog at the end hands every enqueued
command to `execute_command` exactly once, in FIFO order. -/
theorem claim_C3 : ∀ (ops : List QOp),
    (runQueue initQueue ops).handled ++ (runQueue initQueue ops).commands =
      enqueuedOf ops
  ∧ runQueue initQueue
      (ops ++ List.replicate (runQueue initQueue ops).commands.length
        QOp.drainStep) = ⟨[], enqueuedOf ops⟩ := by
  intro ops
  have hinv := runQueue_inv ops initQueue
  simp only [show initQueue.handled = [] from rfl,
    show initQueue.commands = [] from rfl, List.nil_append] at hinv
  constructor
  · exact hinv
  · have hsplit : runQueue initQueue
        (ops ++ List.replicate (runQueue initQueue ops).commands.length
          QOp.drainStep) =
        runQueue (runQueue initQueue ops)
          (List.replicate (runQueue initQueue ops).commands.length
            QOp.drainStep) := by
      simp [runQueue, List.foldl_append]
    rw [hsplit]
    have hd := drainAll_empties (runQueue initQueue ops).commands
      (runQueue initQueue ops).handled
    rw [show (⟨(runQueue initQueue ops).commands,
        (runQueue initQueue ops).handled⟩ : QueueState) =
        runQueue initQueue ops from rfl] at hd
    rw [hd, hinv]

/-- C4: once the worker has published the snapshot `(c, t)`, every
following sequence of foreground reads (full reads or colour-only
reads, in any order) observes exactly that snapshot, and the reads keep
observing it until a refresh publishes again. -/
theorem claim_C4 : ∀ (c t : String) (s : CacheState) (ops : List CacheOp),
    (∀ op ∈ ops, op = CacheOp.read ∨ op = CacheOp.readColor) →
    (runCache (publishSnap c t s) ops).status_line = t
  ∧ (runCache (publishSnap c t s) ops).status_line_color = c
  ∧ (get_status_line (runCache (publishSnap c t s) ops)).1 = t
  ∧ (get_status_line_color (runCache (publishSnap c t s) ops)).1 = c := by
  intro c t s ops h
  have hr := readsPreserve ops (publishSnap c t s) h
  exact ⟨hr.1, hr.2, hr.1, hr.2⟩

/-- C4, witness: after publishing `("colA", "textB")` over the initial
cache state, a read, a colour read and another read all return the
published pair. -/
theorem claim_C4_witness :
    (runCache (publishSnap "colA" "textB" initCache)
      [CacheOp.read, CacheOp.readColor, CacheOp.read]).status_line = "textB"
  ∧ (runCache (publishSnap "colA" "textB" initCache)
      [CacheOp.read, CacheOp.readColor, CacheOp.read]).status_line_color = "colA"
  ∧ (get_status_line (runCache (publishSnap "colA" "textB" initCache)
      [CacheOp.read, CacheOp.readColor, CacheOp.read])).1 = "textB"
  ∧ (get_status_line_color (runCache (publishSnap "colA" "textB" initCache)
      [CacheOp.read, CacheOp.readColor, CacheOp.read])).1 = "colA" :=
  claim_C4 "colA" "textB" initCache
    [CacheOp.read, CacheOp.readColor, CacheOp.read] (by decide)

/-- C5, counterexample: splitting is on single space characters, not on
whitespace runs. Two spaces between "magnet" and "on" produce an empty
first argument, so the parse differs from the single-space parse and the
magnet is turned OFF instead of ON; a tab does not separate tokens at
all, leaving a single unknown head. -/
theorem claim_C5_counterexample :
    pyParse "magnet  on" ≠ pyParse "magnet on"
  ∧ pyParse "magnet  on" = ("magnet", ["", "on"])
  ∧ pyParse "magnet on" = ("magnet", ["on"])
  ∧ pyParse "magnet\ton" = ("magnet\ton", [])
  ∧ (execute_command testEnv "magnet  on").actions =
      [Action.setElectromagnet false false]
  ∧ (execute_command testEnv "magnet on").actions =
      [Action.setElectromagnet true false] := by
  decide

/-- C5 (amended): the interpreter trims the command line, lowercases it,
and splits it on single space characters only; the head is dispatched
case-insensitively. For whitespace-free tokens `a` and `b`: one space
between them yields head `a` and one argument `b` (both lowercased); two
spaces yield an extra empty argument between them; a tab is not a
separator, so the pair becomes a single head token. -/
theorem claim_C5_amended : ∀ (a b : List Char),
    a ≠ [] → b ≠ [] →
    (∀ c ∈ a, pyWhitespace c = false) → (∀ c ∈ b, pyWhitespace c = false) →
      pyParse (String.mk (a ++ ' ' :: b)) =
        (String.mk (pyLower a), [String.mk (pyLower b)])
    ∧ pyParse (String.mk (a ++ ' ' :: ' ' :: b)) =
        (String.mk (pyLower a), [String.mk [], String.mk (pyLower b)])
    ∧ pyParse (String.mk (a ++ '\t' :: b)) =
        (String.mk (pyLower a ++ '\t' :: pyLower b), []) := by
  intro a b ha hb hA hB
  have hA' := mem_pyLower_ne_space hA
  have hB' := mem_pyLower_ne_space hB
  refine ⟨?_, ?_, ?_⟩
  · have hs : pyStrip (a ++ ' ' :: b) = a ++ ' ' :: b :=
      pyStrip_sandwich a [' '] b ha hb hA hB
    have hl : pyLower (a ++ ' ' :: b) = pyLower a ++ ' ' :: pyLower b := by
      simp [pyLower, pyToLower]
    have hsp := pySplit1_append_space (pyLower a) (pyLower b) hA'
    rw [pySplit1_no_space (pyLower b) hB'] at hsp
    simp [pyParse, hs, hl, hsp]
  · have hs : pyStrip (a ++ ' ' :: ' ' :: b) = a ++ ' ' :: ' ' :: b :=
      pyStrip_sandwich a [' ', ' '] b ha hb hA hB
    have hl : pyLower (a ++ ' ' :: ' ' :: b) =
        pyLower a ++ ' ' :: ' ' :: pyLower b := by
      simp [pyLower, pyToLower]
    have hsp := pySplit1_append_space (pyLower a) (' ' :: pyLower b) hA'
    have h2 : pySplit1 (' ' :: pyLower b) =
        ([], (pySplit1 (pyLower b)).1 :: (pySplit1 (pyLower b)).2) := by
      simp [pySplit1]
    rw [h2, pySplit1_no_space (pyLower b) hB'] at hsp
    simp [pyParse, hs, hl, hsp]
  · have hs : pyStrip (a ++ '\t' :: b) = a ++ '\t' :: b :=
      pyStrip_sandwich a ['\t'] b ha hb hA hB
    have hl : pyLower (a ++ '\t' :: b) = pyLower a ++ '\t' :: pyLower b := by
      simp [pyLower, pyToLower]
    have hno : ∀ c ∈ pyLower a ++ '\t' :: pyLower b, c ≠ ' ' := by
      intro c hc
      rcases List.mem_append.mp hc with h | h
      · exact hA' c h
      · rcases List.mem_cons.mp h with rfl | h
        · decide
        · exact hB' c h
    have hsp := pySplit1_no_space _ hno
    simp [pyParse, hs, hl, hsp]

/-- C5, witness for the amended claim at the tokens "MoVe" and "e4":
one space parses to head "move" with argument "e4", two spaces insert
an empty argument, and a tab separates nothing. -/
theorem claim_C5_amended_witness :
    pyParse "MoVe e4" = ("move", ["e4"])
  ∧ pyParse "MoVe  e4" = ("move", ["", "e4"])
  ∧ pyParse "MoVe\te4" = ("move\te4", []) :=
  claim_C5_amended ['M', 'o', 'V', 'e'] ['e', '4']
    (by decide) (by decide) (by decide) (by decide)

/-- C6: the camshow branch degrades exactly as claimed. A fetch failure
reports the error and returns without showing any image; a successful
fetch with a failing detection shows the undecorated raw frame and
reports the error; success on both prints the detected board flipped
both horizontally and vertically. -/
theorem claim_C6 : ∀ (env : Env) (cmd e : String) (img : Nat) (b : BoardGrid),
    (pyParse cmd).1 = "camshow" →
    (env.fetchImage = Except.error e →
      execute_command env cmd =
        ⟨["Fetching image...", "Failed to load image: " ++ e],
         [], [], false, none⟩)
  ∧ (env.fetchImage = Except.ok img →
      detect_and_generate env img = Except.error e →
      execute_command env cmd =
        ⟨["Fetching image...", "Recognizing board...",
          "Failed to detect piece positions: " ++ e],
         [], [(img, "Failed to Detect Piece Positions:")], false, none⟩)
  ∧ (env.fetchImage = Except.ok img →
      detect_and_generate env img = Except.ok b →
      execute_command env cmd =
        ⟨["Fetching image...", "Recognizing board...",
          "Board (computer perspective):",
          boardText (flipVertical (flipHorizontal b))],
         [], [], false, none⟩) := by
  intro env cmd e img b h
  have hx : execute_command env cmd = camshowBranch env := by
    rw [execute_eq_dispatch, h]
    rfl
  refine ⟨?_, ?_, ?_⟩
  · intro hf
    rw [hx]
    unfold camshowBranch
    rw [hf]
  · intro hf hd
    rw [hx]
    unfold camshowBranch
    rw [hf]
    show camshowDetect env img = _
    unfold camshowDetect
    rw [hd]
  · intro hf hd
    rw [hx]
    unfold camshowBranch
    rw [hf]
    show camshowDetect env img = _
    unfold camshowDetect
    rw [hd]

/-- C6, witness: with a failing detector the raw frame (image 7) is
shown with the failure caption and the error is reported. -/
theorem claim_C6_witness :
    execute_command envDetectFail "camshow" =
      ⟨["Fetching image...", "Recognizing board...",
        "Failed to detect piece positions: no corners found"],
       [], [(7, "Failed to Detect Piece Positions:")], false, none⟩ :=
  (claim_C6 envDetectFail "camshow" "no corners found" 7 [["r"]]
    (by decide)).2.1 rfl rfl

/-- C7: the state-to-colour lookup is total with a default. A state
present in `GAME_STATE_STATUSLINE_COLORS` yields its mapped colour; a
state absent from the table yields the default colour
"ansiblack bg:ansiwhite" instead of failing; and `make_statusline`
returns exactly this lookup as the colour of every snapshot. -/
theorem claim_C7 : ∀ (s : GState) (w : WorkerEnv),
    (∀ c, dictFind GAME_STATE_STATUSLINE_COLORS s = some c →
      statuslineColor s = c)
  ∧ (dictFind GAME_STATE_STATUSLINE_COLORS s = none →
      statuslineColor s = "ansiblack bg:ansiwhite")
  ∧ (make_statusline w).1 = statuslineColor w.state := by
  intro s w
  refine ⟨?_, ?_, rfl⟩
  · intro c hc
    simp [statuslineColor, dictGet, hc]
  · intro hn
    simp [statuslineColor, dictGet, hn]

/-- C7, witness: READY is mapped to its table colour, and the unmapped
state WAITING_FOR_INPUT falls back to the default colour. -/
theorem claim_C7_witness :
    statuslineColor GState.READY = "bg:ansigreen"
  ∧ statuslineColor GState.WAITING_FOR_INPUT = "ansiblack bg:ansiwhite" :=
  ⟨(claim_C7 GState.READY ⟨GState.READY, "", false⟩).1 "bg:ansigreen" (by decide),
   (claim_C7 GState.WAITING_FOR_INPUT ⟨GState.READY, "", false⟩).2.1 (by decide)⟩

/-- C8: a full read returns the cached text and sets the staleness flag
to true while changing nothing else; a colour-only read returns the
cached colour and leaves the whole cache state unchanged. -/
theorem claim_C8 : ∀ (s : CacheState),
    (get_status_line s).1 = s.status_line
  ∧ (get_status_line s).2.status_line_stale = true
  ∧ (get_status_line s).2.status_line = s.status_line
  ∧ (get_status_line s).2.status_line_color = s.status_line_color
  ∧ (get_status_line_color s).1 = s.status_line_color
  ∧ (get_status_line_color s).2 = s :=
  fun _ => ⟨rfl, rfl, rfl, rfl, rfl, rfl⟩

/-- C9, counterexample: the publish is two separate field stores with no
lock, so a reader scheduled between them observes the colour of the new
snapshot paired with the text of the old one. After publishing
("bg:ansigreen", "T1") and the first store of publishing
("bg:ansired", "T2"), the reader observes ("bg:ansired", "T1"), which
is neither published snapshot; completing the second store yields
exactly the interrupted publish, showing the observation really sits
inside one. -/
theorem claim_C9_counterexample :
    ((get_status_line_color (storeStatusColor "bg:ansired"
        (publishSnap "bg:ansigreen" "T1" initCache))).1,
     (get_status_line (storeStatusColor "bg:ansired"
        (publishSnap "bg:ansigreen" "T1" initCache))).1) = ("bg:ansired", "T1")
  ∧ (("bg:ansired", "T1") : String × String) ≠ ("bg:ansigreen", "T1")
  ∧ (("bg:ansired", "T1") : String × String) ≠ ("bg:ansired", "T2")
  ∧ storeStatusLine "T2" (storeStatusColor "bg:ansired"
      (publishSnap "bg:ansigreen" "T1" initCache)) =
      publishSnap "bg:ansired" "T2" (publishSnap "bg:ansigreen" "T1" initCache) := by
  decide

/-- C9 (amended): the snapshot fields and the staleness flag are plain
shared fields with no mutual-exclusion discipline; the publish tuple
assignment stores the colour first and the text second, so between the
two stores of a publish every reader observes the new colour paired
with the old text — tearing is possible for any two snapshots. -/
theorem claim_C9_amended : ∀ (c1 t1 c2 t2 : String) (s : CacheState),
    publishSnap c2 t2 (publishSnap c1 t1 s) =
      storeStatusLine t2 (storeStatusColor c2 (publishSnap c1 t1 s))
  ∧ (get_status_line_color (storeStatusColor c2 (publishSnap c1 t1 s))).1 = c2
  ∧ (get_status_line (storeStatusColor c2 (publishSnap c1 t1 s))).1 = t1
  ∧ (storeStatusColor c2 (publishSnap c1 t1 s)).status_line_stale =
      s.status_line_stale :=
  fun _ _ _ _ _ => ⟨rfl, rfl, rfl, rfl⟩

/-- C10: for "magnet" and "autoplay", any argument other than exactly
"on" is treated as off: the setter is invoked with `false`, nothing else
happens, and no error is reported. -/
theorem claim_C10 : ∀ (env : Env) (cmd a0 : String) (rest : List String),
    (pyParse cmd = ("magnet", a0 :: rest) → a0 ≠ "on" →
      execute_command env cmd =
        ⟨["Turning magnet OFF"], [Action.setElectromagnet false false],
         [], false, none⟩)
  ∧ (pyParse cmd = ("autoplay", a0 :: rest) → a0 ≠ "on" →
      execute_command env cmd =
        ⟨[], [Action.setAutoplay false], [], false, none⟩) := by
  intro env cmd a0 rest
  constructor
  · intro h hne
    rw [execute_eq_dispatch, h]
    show (⟨[if a0 = "on" then "Turning magnet ON" else "Turning magnet OFF"],
      [Action.setElectromagnet (decide (a0 = "on")) false], [], false, none⟩ :
        ExecOut) = _
    simp [hne]
  · intro h hne
    rw [execute_eq_dispatch, h]
    show (⟨[], [Action.setAutoplay (decide (a0 = "on"))], [], false, none⟩ :
        ExecOut) = _
    simp [hne]

/-- C10, witness: "magnet blah" turns the magnet off with the normal
feedback message, and "autoplay blah" disables autoplay silently. -/
theorem claim_C10_witness :
    execute_command testEnv "magnet blah" =
      ⟨["Turning magnet OFF"], [Action.setElectromagnet false false],
       [], false, none⟩
  ∧ execute_command testEnv "autoplay blah" =
      ⟨[], [Action.setAutoplay false], [], false, none⟩ :=
  ⟨(claim_C10 testEnv "magnet blah" "blah" []).1 (by decide) (by decide),
   (claim_C10 testEnv "autoplay blah" "blah" []).2 (by decide) (by decide)⟩

end Grandmaster
